import Mathlib

/-!
Shallow embedding of `src/inventory_manager.py`, a pharmacy inventory manager.

Modelling conventions:
- Python `datetime` values are modelled as `Int` microseconds since an epoch
  (`DateTime`); `timedelta.days` is floor division by the microseconds in a day,
  which matches the Python normalisation of negative timedeltas.
- Python `float` prices are modelled as `Rat` (every IEEE double is a rational
  and JSON round-trips it exactly; no claim computes with prices).
- The Python `dict` keeping insertion order is modelled as an association list
  `List (String × Product)`; `d[k] = v` is `setKey` (overwrite in place, append
  when absent), `del d[k]` is `removeKey`, `k in d` is `lookupKey ≠ none`.
- Methods that call `datetime.now()` take `now : DateTime` explicitly.
- File I/O is out of scope per the spec; `save_to_file` produces the JSON
  document as a `Doc` value and `load_from_file` consumes `Option Doc`
  (`none` models `FileNotFoundError`).  The ISO-8601 timestamp encoding is an
  exact round-trip in Python, so serialized timestamps are carried as their
  `DateTime` values; the category tag encoding (a plain string that the loader
  must recognise, `ProductCategory(value)` raising on an unknown tag) is
  modelled faithfully by `categoryValue` / `parseCategory`.
- Python `str.lower()` is modelled as CPython implements it: the full
  Unicode lowercase mapping of the UCD 14.0.0 database bundled with the
  interpreter, plus the contextual final-sigma rule (`strLower`).
- Console prints are not part of the contract and are dropped.
-/

namespace Inventory

set_option maxHeartbeats 2000000

abbrev DateTime := Int

/-- Microseconds in one day; `timedelta.days` is floor division by this. -/
def usPerDay : Int := 86400000000

/-- The `ProductCategory` enum of the source (10 closed tags). -/
inductive ProductCategory where
  | ORTOMOLECULAR
  | DERMOCOSMETICA
  | HOMEOPATIA
  | ALOPATICA
  | FITOTERAPIA
  | FLORALES
  | PROBIOTICOS
  | HORMONAS
  | MATERIA_PRIMA
  | OTROS
deriving DecidableEq, Repr

/-- The `.value` string of each enum member. -/
def categoryValue : ProductCategory → String
  | .ORTOMOLECULAR => "ortomolecular"
  | .DERMOCOSMETICA => "dermocosmetica"
  | .HOMEOPATIA => "homeopatia"
  | .ALOPATICA => "alopatica"
  | .FITOTERAPIA => "fitoterapia"
  | .FLORALES => "florales"
  | .PROBIOTICOS => "probioticos"
  | .HORMONAS => "hormonas"
  | .MATERIA_PRIMA => "materia_prima"
  | .OTROS => "otros"

/-- `ProductCategory(tag)`: enum lookup by value, failing on an unknown tag
(a `ValueError` in Python, modelled as `none`). -/
def parseCategory : String → Option ProductCategory
  | "ortomolecular" => some .ORTOMOLECULAR
  | "dermocosmetica" => some .DERMOCOSMETICA
  | "homeopatia" => some .HOMEOPATIA
  | "alopatica" => some .ALOPATICA
  | "fitoterapia" => some .FITOTERAPIA
  | "florales" => some .FLORALES
  | "probioticos" => some .PROBIOTICOS
  | "hormonas" => some .HORMONAS
  | "materia_prima" => some .MATERIA_PRIMA
  | "otros" => some .OTROS
  | _ => none

/-- The `Product` dataclass. -/
structure Product where
  id : String
  name : String
  category : ProductCategory
  description : String
  stock_quantity : Int
  min_stock : Int
  unit_price : Rat
  expiration_date : Option DateTime
  batch_number : Option String
  supplier : Option String
  storage_location : Option String
deriving DecidableEq, Repr

/-- `Product.is_low_stock`: `stock_quantity <= min_stock`. -/
def Product.is_low_stock (p : Product) : Bool :=
  p.stock_quantity ≤ p.min_stock

/-- `Product.is_expired`: false without a date, else `datetime.now() > expiration_date`. -/
def Product.is_expired (p : Product) (now : DateTime) : Bool :=
  match p.expiration_date with
  | none => false
  | some e => e < now

/-- `Product.days_until_expiration`: `(expiration_date - datetime.now()).days`,
`None` without a date.  `timedelta.days` floors. -/
def Product.days_until_expiration (p : Product) (now : DateTime) : Option Int :=
  match p.expiration_date with
  | none => none
  | some e => some (Int.fdiv (e - now) usPerDay)

/-- `Product.is_near_expiration(days_threshold=30)`:
`0 < days <= days_threshold`, false when no date. -/
def Product.is_near_expiration (p : Product) (days_threshold : Int) (now : DateTime) : Bool :=
  match p.days_until_expiration now with
  | none => false
  | some days => 0 < days && days ≤ days_threshold

/-- The dictionary `Product.to_dict` produces (JSON-side representation):
`category` rendered as its tag string, the expiration timestamp carried by
value (its ISO-8601 rendering round-trips exactly). -/
structure ProductDict where
  id : String
  name : String
  category : String
  description : String
  stock_quantity : Int
  min_stock : Int
  unit_price : Rat
  expiration_date : Option DateTime
  batch_number : Option String
  supplier : Option String
  storage_location : Option String
deriving DecidableEq, Repr

/-- `Product.to_dict`. -/
def Product.to_dict (p : Product) : ProductDict :=
  { id := p.id
    name := p.name
    category := categoryValue p.category
    description := p.description
    stock_quantity := p.stock_quantity
    min_stock := p.min_stock
    unit_price := p.unit_price
    expiration_date := p.expiration_date
    batch_number := p.batch_number
    supplier := p.supplier
    storage_location := p.storage_location }

/-- The per-product body of the `load_from_file` loop: map the category tag
back through the enum (failing on an unknown tag) and rebuild `Product(**data)`. -/
def product_from_dict (d : ProductDict) : Option Product :=
  match parseCategory d.category with
  | none => none
  | some c =>
    some { id := d.id
           name := d.name
           category := c
           description := d.description
           stock_quantity := d.stock_quantity
           min_stock := d.min_stock
           unit_price := d.unit_price
           expiration_date := d.expiration_date
           batch_number := d.batch_number
           supplier := d.supplier
           storage_location := d.storage_location }

/-- A transaction record appended by `_log_transaction`. -/
structure Transaction where
  timestamp : DateTime
  action : String
  product_id : String
  quantity : Int
  reason : String
deriving DecidableEq, Repr

/-- `InventoryManager` state: the insertion-ordered product mapping and the
transaction list. -/
structure State where
  products : List (String × Product)
  transactions : List Transaction
deriving DecidableEq, Repr

/-- Dict lookup `d.get(k)` / `d[k]` on the association list (keys are unique
in a Python dict; lookup returns the first binding). -/
def lookupKey : List (String × Product) → String → Option Product
  | [], _ => none
  | kp :: rest, k => if kp.1 = k then some kp.2 else lookupKey rest k

/-- Dict assignment `d[k] = v`: overwrite the binding in place when the key is
present, append a new binding otherwise. -/
def setKey : List (String × Product) → String → Product → List (String × Product)
  | [], k, v => [(k, v)]
  | kp :: rest, k, v => if kp.1 = k then (k, v) :: rest else kp :: setKey rest k v

/-- Dict deletion `del d[k]` (removes the binding of `k`). -/
def removeKey : List (String × Product) → String → List (String × Product)
  | [], _ => []
  | kp :: rest, k => if kp.1 = k then rest else kp :: removeKey rest k

/-- `InventoryManager._log_transaction(action, product_id, quantity, reason="")`. -/
def log_transaction (s : State) (now : DateTime) (action : String)
    (product_id : String) (quantity : Int) (reason : String) : State :=
  { s with transactions := s.transactions ++ [⟨now, action, product_id, quantity, reason⟩] }

/-- `InventoryManager.add_product(product)`. -/
def add_product (s : State) (now : DateTime) (product : Product) : Bool × State :=
  match lookupKey s.products product.id with
  | some _ => (false, s)
  | none =>
    let s1 : State := { s with products := setKey s.products product.id product }
    (true, log_transaction s1 now "ADD" product.id product.stock_quantity "")

/-- `InventoryManager.remove_product(product_id)`. -/
def remove_product (s : State) (now : DateTime) (product_id : String) : Bool × State :=
  match lookupKey s.products product_id with
  | none => (false, s)
  | some _ =>
    let s1 : State := { s with products := removeKey s.products product_id }
    (true, log_transaction s1 now "REMOVE" product_id 0 "")

/-- `InventoryManager.update_stock(product_id, quantity_change, reason="")`. -/
def update_stock (s : State) (now : DateTime) (product_id : String)
    (quantity_change : Int) (reason : String) : Bool × State :=
  match lookupKey s.products product_id with
  | none => (false, s)
  | some product =>
    let new_quantity := product.stock_quantity + quantity_change
    if new_quantity < 0 then (false, s)
    else
      let s1 : State :=
        { s with products :=
            setKey s.products product_id { product with stock_quantity := new_quantity } }
      (true, log_transaction s1 now "UPDATE" product_id quantity_change reason)

/-- `InventoryManager.get_product(product_id)`. -/
def get_product (s : State) (product_id : String) : Option Product :=
  lookupKey s.products product_id

/-- `self.products.values()` in iteration (= insertion) order. -/
def productValues (s : State) : List Product :=
  s.products.map Prod.snd

/-- `pat` occurs as a contiguous run at the head of `s` (`str.startswith`). -/
def listStartsWith : List Char → List Char → Bool
  | _, [] => true
  | [], _ :: _ => false
  | c :: cs, p :: ps => c == p && listStartsWith cs ps

/-- Python substring containment `pat in s` on character lists. -/
def listContainsSub : List Char → List Char → Bool
  | [], pat => pat.isEmpty
  | c :: cs, pat => listStartsWith (c :: cs) pat || listContainsSub cs pat

/-- Python `pat in s` for strings. -/
def strContains (s pat : String) : Bool :=
  listContainsSub s.data pat.data

/-- The Unicode full lowercase mapping used by CPython `str.lower()`
(UCD 14.0.0, the database bundled with the interpreter): every codepoint
whose lowercase differs from itself, with its lowercase expansion (one entry,
U+0130, expands to two codepoints).  The capital sigma U+03A3 is absent here
because CPython handles it contextually (see `finalSigma`). -/
def lowerTable : List (Nat × List Nat) := [
  (65, [97]), (66, [98]), (67, [99]), (68, [100]),
  (69, [101]), (70, [102]), (71, [103]), (72, [104]),
  (73, [105]), (74, [106]), (75, [107]), (76, [108]),
  (77, [109]), (78, [110]), (79, [111]), (80, [112]),
  (81, [113]), (82, [114]), (83, [115]), (84, [116]),
  (85, [117]), (86, [118]), (87, [119]), (88, [120]),
  (89, [121]), (90, [122]), (192, [224]), (193, [225]),
  (194, [226]), (195, [227]), (196, [228]), (197, [229]),
  (198, [230]), (199, [231]), (200, [232]), (201, [233]),
  (202, [234]), (203, [235]), (204, [236]), (205, [237]),
  (206, [238]), (207, [239]), (208, [240]), (209, [241]),
  (210, [242]), (211, [243]), (212, [244]), (213, [245]),
  (214, [246]), (216, [248]), (217, [249]), (218, [250]),
  (219, [251]), (220, [252]), (221, [253]), (222, [254]),
  (256, [257]), (258, [259]), (260, [261]), (262, [263]),
  (264, [265]), (266, [267]), (268, [269]), (270, [271]),
  (272, [273]), (274, [275]), (276, [277]), (278, [279]),
  (280, [281]), (282, [283]), (284, [285]), (286, [287]),
  (288, [289]), (290, [291]), (292, [293]), (294, [295]),
  (296, [297]), (298, [299]), (300, [301]), (302, [303]),
  (304, [105, 775]), (306, [307]), (308, [309]), (310, [311]),
  (313, [314]), (315, [316]), (317, [318]), (319, [320]),
  (321, [322]), (323, [324]), (325, [326]), (327, [328]),
  (330, [331]), (332, [333]), (334, [335]), (336, [337]),
  (338, [339]), (340, [341]), (342, [343]), (344, [345]),
  (346, [347]), (348, [349]), (350, [351]), (352, [353]),
  (354, [355]), (356, [357]), (358, [359]), (360, [361]),
  (362, [363]), (364, [365]), (366, [367]), (368, [369]),
  (370, [371]), (372, [373]), (374, [375]), (376, [255]),
  (377, [378]), (379, [380]), (381, [382]), (385, [595]),
  (386, [387]), (388, [389]), (390, [596]), (391, [392]),
  (393, [598]), (394, [599]), (395, [396]), (398, [477]),
  (399, [601]), (400, [603]), (401, [402]), (403, [608]),
  (404, [611]), (406, [617]), (407, [616]), (408, [409]),
  (412, [623]), (413, [626]), (415, [629]), (416, [417]),
  (418, [419]), (420, [421]), (422, [640]), (423, [424]),
  (425, [643]), (428, [429]), (430, [648]), (431, [432]),
  (433, [650]), (434, [651]), (435, [436]), (437, [438]),
  (439, [658]), (440, [441]), (444, [445]), (452, [454]),
  (453, [454]), (455, [457]), (456, [457]), (458, [460]),
  (459, [460]), (461, [462]), (463, [464]), (465, [466]),
  (467, [468]), (469, [470]), (471, [472]), (473, [474]),
  (475, [476]), (478, [479]), (480, [481]), (482, [483]),
  (484, [485]), (486, [487]), (488, [489]), (490, [491]),
  (492, [493]), (494, [495]), (497, [499]), (498, [499]),
  (500, [501]), (502, [405]), (503, [447]), (504, [505]),
  (506, [507]), (508, [509]), (510, [511]), (512, [513]),
  (514, [515]), (516, [517]), (518, [519]), (520, [521]),
  (522, [523]), (524, [525]), (526, [527]), (528, [529]),
  (530, [531]), (532, [533]), (534, [535]), (536, [537]),
  (538, [539]), (540, [541]), (542, [543]), (544, [414]),
  (546, [547]), (548, [549]), (550, [551]), (552, [553]),
  (554, [555]), (556, [557]), (558, [559]), (560, [561]),
  (562, [563]), (570, [11365]), (571, [572]), (573, [410]),
  (574, [11366]), (577, [578]), (579, [384]), (580, [649]),
  (581, [652]), (582, [583]), (584, [585]), (586, [587]),
  (588, [589]), (590, [591]), (880, [881]), (882, [883]),
  (886, [887]), (895, [1011]), (902, [940]), (904, [941]),
  (905, [942]), (906, [943]), (908, [972]), (910, [973]),
  (911, [974]), (913, [945]), (914, [946]), (915, [947]),
  (916, [948]), (917, [949]), (918, [950]), (919, [951]),
  (920, [952]), (921, [953]), (922, [954]), (923, [955]),
  (924, [956]), (925, [957]), (926, [958]), (927, [959]),
  (928, [960]), (929, [961]), (932, [964]), (933, [965]),
  (934, [966]), (935, [967]), (936, [968]), (937, [969]),
  (938, [970]), (939, [971]), (975, [983]), (984, [985]),
  (986, [987]), (988, [989]), (990, [991]), (992, [993]),
  (994, [995]), (996, [997]), (998, [999]), (1000, [1001]),
  (1002, [1003]), (1004, [1005]), (1006, [1007]), (1012, [952]),
  (1015, [1016]), (1017, [1010]), (1018, [1019]), (1021, [891]),
  (1022, [892]), (1023, [893]), (1024, [1104]), (1025, [1105]),
  (1026, [1106]), (1027, [1107]), (1028, [1108]), (1029, [1109]),
  (1030, [1110]), (1031, [1111]), (1032, [1112]), (1033, [1113]),
  (1034, [1114]), (1035, [1115]), (1036, [1116]), (1037, [1117]),
  (1038, [1118]), (1039, [1119]), (1040, [1072]), (1041, [1073]),
  (1042, [1074]), (1043, [1075]), (1044, [1076]), (1045, [1077]),
  (1046, [1078]), (1047, [1079]), (1048, [1080]), (1049, [1081]),
  (1050, [1082]), (1051, [1083]), (1052, [1084]), (1053, [1085]),
  (1054, [1086]), (1055, [1087]), (1056, [1088]), (1057, [1089]),
  (1058, [1090]), (1059, [1091]), (1060, [1092]), (1061, [1093]),
  (1062, [1094]), (1063, [1095]), (1064, [1096]), (1065, [1097]),
  (1066, [1098]), (1067, [1099]), (1068, [1100]), (1069, [1101]),
  (1070, [1102]), (1071, [1103]), (1120, [1121]), (1122, [1123]),
  (1124, [1125]), (1126, [1127]), (1128, [1129]), (1130, [1131]),
  (1132, [1133]), (1134, [1135]), (1136, [1137]), (1138, [1139]),
  (1140, [1141]), (1142, [1143]), (1144, [1145]), (1146, [1147]),
  (1148, [1149]), (1150, [1151]), (1152, [1153]), (1162, [1163]),
  (1164, [1165]), (1166, [1167]), (1168, [1169]), (1170, [1171]),
  (1172, [1173]), (1174, [1175]), (1176, [1177]), (1178, [1179]),
  (1180, [1181]), (1182, [1183]), (1184, [1185]), (1186, [1187]),
  (1188, [1189]), (1190, [1191]), (1192, [1193]), (1194, [1195]),
  (1196, [1197]), (1198, [1199]), (1200, [1201]), (1202, [1203]),
  (1204, [1205]), (1206, [1207]), (1208, [1209]), (1210, [1211]),
  (1212, [1213]), (1214, [1215]), (1216, [1231]), (1217, [1218]),
  (1219, [1220]), (1221, [1222]), (1223, [1224]), (1225, [1226]),
  (1227, [1228]), (1229, [1230]), (1232, [1233]), (1234, [1235]),
  (1236, [1237]), (1238, [1239]), (1240, [1241]), (1242, [1243]),
  (1244, [1245]), (1246, [1247]), (1248, [1249]), (1250, [1251]),
  (1252, [1253]), (1254, [1255]), (1256, [1257]), (1258, [1259]),
  (1260, [1261]), (1262, [1263]), (1264, [1265]), (1266, [1267]),
  (1268, [1269]), (1270, [1271]), (1272, [1273]), (1274, [1275]),
  (1276, [1277]), (1278, [1279]), (1280, [1281]), (1282, [1283]),
  (1284, [1285]), (1286, [1287]), (1288, [1289]), (1290, [1291]),
  (1292, [1293]), (1294, [1295]), (1296, [1297]), (1298, [1299]),
  (1300, [1301]), (1302, [1303]), (1304, [1305]), (1306, [1307]),
  (1308, [1309]), (1310, [1311]), (1312, [1313]), (1314, [1315]),
  (1316, [1317]), (1318, [1319]), (1320, [1321]), (1322, [1323]),
  (1324, [1325]), (1326, [1327]), (1329, [1377]), (1330, [1378]),
  (1331, [1379]), (1332, [1380]), (1333, [1381]), (1334, [1382]),
  (1335, [1383]), (1336, [1384]), (1337, [1385]), (1338, [1386]),
  (1339, [1387]), (1340, [1388]), (1341, [1389]), (1342, [1390]),
  (1343, [1391]), (1344, [1392]), (1345, [1393]), (1346, [1394]),
  (1347, [1395]), (1348, [1396]), (1349, [1397]), (1350, [1398]),
  (1351, [1399]), (1352, [1400]), (1353, [1401]), (1354, [1402]),
  (1355, [1403]), (1356, [1404]), (1357, [1405]), (1358, [1406]),
  (1359, [1407]), (1360, [1408]), (1361, [1409]), (1362, [1410]),
  (1363, [1411]), (1364, [1412]), (1365, [1413]), (1366, [1414]),
  (4256, [11520]), (4257, [11521]), (4258, [11522]), (4259, [11523]),
  (4260, [11524]), (4261, [11525]), (4262, [11526]), (4263, [11527]),
  (4264, [11528]), (4265, [11529]), (4266, [11530]), (4267, [11531]),
  (4268, [11532]), (4269, [11533]), (4270, [11534]), (4271, [11535]),
  (4272, [11536]), (4273, [11537]), (4274, [11538]), (4275, [11539]),
  (4276, [11540]), (4277, [11541]), (4278, [11542]), (4279, [11543]),
  (4280, [11544]), (4281, [11545]), (4282, [11546]), (4283, [11547]),
  (4284, [11548]), (4285, [11549]), (4286, [11550]), (4287, [11551]),
  (4288, [11552]), (4289, [11553]), (4290, [11554]), (4291, [11555]),
  (4292, [11556]), (4293, [11557]), (4295, [11559]), (4301, [11565]),
  (5024, [43888]), (5025, [43889]), (5026, [43890]), (5027, [43891]),
  (5028, [43892]), (5029, [43893]), (5030, [43894]), (5031, [43895]),
  (5032, [43896]), (5033, [43897]), (5034, [43898]), (5035, [43899]),
  (5036, [43900]), (5037, [43901]), (5038, [43902]), (5039, [43903]),
  (5040, [43904]), (5041, [43905]), (5042, [43906]), (5043, [43907]),
  (5044, [43908]), (5045, [43909]), (5046, [43910]), (5047, [43911]),
  (5048, [43912]), (5049, [43913]), (5050, [43914]), (5051, [43915]),
  (5052, [43916]), (5053, [43917]), (5054, [43918]), (5055, [43919]),
  (5056, [43920]), (5057, [43921]), (5058, [43922]), (5059, [43923]),
  (5060, [43924]), (5061, [43925]), (5062, [43926]), (5063, [43927]),
  (5064, [43928]), (5065, [43929]), (5066, [43930]), (5067, [43931]),
  (5068, [43932]), (5069, [43933]), (5070, [43934]), (5071, [43935]),
  (5072, [43936]), (5073, [43937]), (5074, [43938]), (5075, [43939]),
  (5076, [43940]), (5077, [43941]), (5078, [43942]), (5079, [43943]),
  (5080, [43944]), (5081, [43945]), (5082, [43946]), (5083, [43947]),
  (5084, [43948]), (5085, [43949]), (5086, [43950]), (5087, [43951]),
  (5088, [43952]), (5089, [43953]), (5090, [43954]), (5091, [43955]),
  (5092, [43956]), (5093, [43957]), (5094, [43958]), (5095, [43959]),
  (5096, [43960]), (5097, [43961]), (5098, [43962]), (5099, [43963]),
  (5100, [43964]), (5101, [43965]), (5102, [43966]), (5103, [43967]),
  (5104, [5112]), (5105, [5113]), (5106, [5114]), (5107, [5115]),
  (5108, [5116]), (5109, [5117]), (7312, [4304]), (7313, [4305]),
  (7314, [4306]), (7315, [4307]), (7316, [4308]), (7317, [4309]),
  (7318, [4310]), (7319, [4311]), (7320, [4312]), (7321, [4313]),
  (7322, [4314]), (7323, [4315]), (7324, [4316]), (7325, [4317]),
  (7326, [4318]), (7327, [4319]), (7328, [4320]), (7329, [4321]),
  (7330, [4322]), (7331, [4323]), (7332, [4324]), (7333, [4325]),
  (7334, [4326]), (7335, [4327]), (7336, [4328]), (7337, [4329]),
  (7338, [4330]), (7339, [4331]), (7340, [4332]), (7341, [4333]),
  (7342, [4334]), (7343, [4335]), (7344, [4336]), (7345, [4337]),
  (7346, [4338]), (7347, [4339]), (7348, [4340]), (7349, [4341]),
  (7350, [4342]), (7351, [4343]), (7352, [4344]), (7353, [4345]),
  (7354, [4346]), (7357, [4349]), (7358, [4350]), (7359, [4351]),
  (7680, [7681]), (7682, [7683]), (7684, [7685]), (7686, [7687]),
  (7688, [7689]), (7690, [7691]), (7692, [7693]), (7694, [7695]),
  (7696, [7697]), (7698, [7699]), (7700, [7701]), (7702, [7703]),
  (7704, [7705]), (7706, [7707]), (7708, [7709]), (7710, [7711]),
  (7712, [7713]), (7714, [7715]), (7716, [7717]), (7718, [7719]),
  (7720, [7721]), (7722, [7723]), (7724, [7725]), (7726, [7727]),
  (7728, [7729]), (7730, [7731]), (7732, [7733]), (7734, [7735]),
  (7736, [7737]), (7738, [7739]), (7740, [7741]), (7742, [7743]),
  (7744, [7745]), (7746, [7747]), (7748, [7749]), (7750, [7751]),
  (7752, [7753]), (7754, [7755]), (7756, [7757]), (7758, [7759]),
  (7760, [7761]), (7762, [7763]), (7764, [7765]), (7766, [7767]),
  (7768, [7769]), (7770, [7771]), (7772, [7773]), (7774, [7775]),
  (7776, [7777]), (7778, [7779]), (7780, [7781]), (7782, [7783]),
  (7784, [7785]), (7786, [7787]), (7788, [7789]), (7790, [7791]),
  (7792, [7793]), (7794, [7795]), (7796, [7797]), (7798, [7799]),
  (7800, [7801]), (7802, [7803]), (7804, [7805]), (7806, [7807]),
  (7808, [7809]), (7810, [7811]), (7812, [7813]), (7814, [7815]),
  (7816, [7817]), (7818, [7819]), (7820, [7821]), (7822, [7823]),
  (7824, [7825]), (7826, [7827]), (7828, [7829]), (7838, [223]),
  (7840, [7841]), (7842, [7843]), (7844, [7845]), (7846, [7847]),
  (7848, [7849]), (7850, [7851]), (7852, [7853]), (7854, [7855]),
  (7856, [7857]), (7858, [7859]), (7860, [7861]), (7862, [7863]),
  (7864, [7865]), (7866, [7867]), (7868, [7869]), (7870, [7871]),
  (7872, [7873]), (7874, [7875]), (7876, [7877]), (7878, [7879]),
  (7880, [7881]), (7882, [7883]), (7884, [7885]), (7886, [7887]),
  (7888, [7889]), (7890, [7891]), (7892, [7893]), (7894, [7895]),
  (7896, [7897]), (7898, [7899]), (7900, [7901]), (7902, [7903]),
  (7904, [7905]), (7906, [7907]), (7908, [7909]), (7910, [7911]),
  (7912, [7913]), (7914, [7915]), (7916, [7917]), (7918, [7919]),
  (7920, [7921]), (7922, [7923]), (7924, [7925]), (7926, [7927]),
  (7928, [7929]), (7930, [7931]), (7932, [7933]), (7934, [7935]),
  (7944, [7936]), (7945, [7937]), (7946, [7938]), (7947, [7939]),
  (7948, [7940]), (7949, [7941]), (7950, [7942]), (7951, [7943]),
  (7960, [7952]), (7961, [7953]), (7962, [7954]), (7963, [7955]),
  (7964, [7956]), (7965, [7957]), (7976, [7968]), (7977, [7969]),
  (7978, [7970]), (7979, [7971]), (7980, [7972]), (7981, [7973]),
  (7982, [7974]), (7983, [7975]), (7992, [7984]), (7993, [7985]),
  (7994, [7986]), (7995, [7987]), (7996, [7988]), (7997, [7989]),
  (7998, [7990]), (7999, [7991]), (8008, [8000]), (8009, [8001]),
  (8010, [8002]), (8011, [8003]), (8012, [8004]), (8013, [8005]),
  (8025, [8017]), (8027, [8019]), (8029, [8021]), (8031, [8023]),
  (8040, [8032]), (8041, [8033]), (8042, [8034]), (8043, [8035]),
  (8044, [8036]), (8045, [8037]), (8046, [8038]), (8047, [8039]),
  (8072, [8064]), (8073, [8065]), (8074, [8066]), (8075, [8067]),
  (8076, [8068]), (8077, [8069]), (8078, [8070]), (8079, [8071]),
  (8088, [8080]), (8089, [8081]), (8090, [8082]), (8091, [8083]),
  (8092, [8084]), (8093, [8085]), (8094, [8086]), (8095, [8087]),
  (8104, [8096]), (8105, [8097]), (8106, [8098]), (8107, [8099]),
  (8108, [8100]), (8109, [8101]), (8110, [8102]), (8111, [8103]),
  (8120, [8112]), (8121, [8113]), (8122, [8048]), (8123, [8049]),
  (8124, [8115]), (8136, [8050]), (8137, [8051]), (8138, [8052]),
  (8139, [8053]), (8140, [8131]), (8152, [8144]), (8153, [8145]),
  (8154, [8054]), (8155, [8055]), (8168, [8160]), (8169, [8161]),
  (8170, [8058]), (8171, [8059]), (8172, [8165]), (8184, [8056]),
  (8185, [8057]), (8186, [8060]), (8187, [8061]), (8188, [8179]),
  (8486, [969]), (8490, [107]), (8491, [229]), (8498, [8526]),
  (8544, [8560]), (8545, [8561]), (8546, [8562]), (8547, [8563]),
  (8548, [8564]), (8549, [8565]), (8550, [8566]), (8551, [8567]),
  (8552, [8568]), (8553, [8569]), (8554, [8570]), (8555, [8571]),
  (8556, [8572]), (8557, [8573]), (8558, [8574]), (8559, [8575]),
  (8579, [8580]), (9398, [9424]), (9399, [9425]), (9400, [9426]),
  (9401, [9427]), (9402, [9428]), (9403, [9429]), (9404, [9430]),
  (9405, [9431]), (9406, [9432]), (9407, [9433]), (9408, [9434]),
  (9409, [9435]), (9410, [9436]), (9411, [9437]), (9412, [9438]),
  (9413, [9439]), (9414, [9440]), (9415, [9441]), (9416, [9442]),
  (9417, [9443]), (9418, [9444]), (9419, [9445]), (9420, [9446]),
  (9421, [9447]), (9422, [9448]), (9423, [9449]), (11264, [11312]),
  (11265, [11313]), (11266, [11314]), (11267, [11315]), (11268, [11316]),
  (11269, [11317]), (11270, [11318]), (11271, [11319]), (11272, [11320]),
  (11273, [11321]), (11274, [11322]), (11275, [11323]), (11276, [11324]),
  (11277, [11325]), (11278, [11326]), (11279, [11327]), (11280, [11328]),
  (11281, [11329]), (11282, [11330]), (11283, [11331]), (11284, [11332]),
  (11285, [11333]), (11286, [11334]), (11287, [11335]), (11288, [11336]),
  (11289, [11337]), (11290, [11338]), (11291, [11339]), (11292, [11340]),
  (11293, [11341]), (11294, [11342]), (11295, [11343]), (11296, [11344]),
  (11297, [11345]), (11298, [11346]), (11299, [11347]), (11300, [11348]),
  (11301, [11349]), (11302, [11350]), (11303, [11351]), (11304, [11352]),
  (11305, [11353]), (11306, [11354]), (11307, [11355]), (11308, [11356]),
  (11309, [11357]), (11310, [11358]), (11311, [11359]), (11360, [11361]),
  (11362, [619]), (11363, [7549]), (11364, [637]), (11367, [11368]),
  (11369, [11370]), (11371, [11372]), (11373, [593]), (11374, [625]),
  (11375, [592]), (11376, [594]), (11378, [11379]), (11381, [11382]),
  (11390, [575]), (11391, [576]), (11392, [11393]), (11394, [11395]),
  (11396, [11397]), (11398, [11399]), (11400, [11401]), (11402, [11403]),
  (11404, [11405]), (11406, [11407]), (11408, [11409]), (11410, [11411]),
  (11412, [11413]), (11414, [11415]), (11416, [11417]), (11418, [11419]),
  (11420, [11421]), (11422, [11423]), (11424, [11425]), (11426, [11427]),
  (11428, [11429]), (11430, [11431]), (11432, [11433]), (11434, [11435]),
  (11436, [11437]), (11438, [11439]), (11440, [11441]), (11442, [11443]),
  (11444, [11445]), (11446, [11447]), (11448, [11449]), (11450, [11451]),
  (11452, [11453]), (11454, [11455]), (11456, [11457]), (11458, [11459]),
  (11460, [11461]), (11462, [11463]), (11464, [11465]), (11466, [11467]),
  (11468, [11469]), (11470, [11471]), (11472, [11473]), (11474, [11475]),
  (11476, [11477]), (11478, [11479]), (11480, [11481]), (11482, [11483]),
  (11484, [11485]), (11486, [11487]), (11488, [11489]), (11490, [11491]),
  (11499, [11500]), (11501, [11502]), (11506, [11507]), (42560, [42561]),
  (42562, [42563]), (42564, [42565]), (42566, [42567]), (42568, [42569]),
  (42570, [42571]), (42572, [42573]), (42574, [42575]), (42576, [42577]),
  (42578, [42579]), (42580, [42581]), (42582, [42583]), (42584, [42585]),
  (42586, [42587]), (42588, [42589]), (42590, [42591]), (42592, [42593]),
  (42594, [42595]), (42596, [42597]), (42598, [42599]), (42600, [42601]),
  (42602, [42603]), (42604, [42605]), (42624, [42625]), (42626, [42627]),
  (42628, [42629]), (42630, [42631]), (42632, [42633]), (42634, [42635]),
  (42636, [42637]), (42638, [42639]), (42640, [42641]), (42642, [42643]),
  (42644, [42645]), (42646, [42647]), (42648, [42649]), (42650, [42651]),
  (42786, [42787]), (42788, [42789]), (42790, [42791]), (42792, [42793]),
  (42794, [42795]), (42796, [42797]), (42798, [42799]), (42802, [42803]),
  (42804, [42805]), (42806, [42807]), (42808, [42809]), (42810, [42811]),
  (42812, [42813]), (42814, [42815]), (42816, [42817]), (42818, [42819]),
  (42820, [42821]), (42822, [42823]), (42824, [42825]), (42826, [42827]),
  (42828, [42829]), (42830, [42831]), (42832, [42833]), (42834, [42835]),
  (42836, [42837]), (42838, [42839]), (42840, [42841]), (42842, [42843]),
  (42844, [42845]), (42846, [42847]), (42848, [42849]), (42850, [42851]),
  (42852, [42853]), (42854, [42855]), (42856, [42857]), (42858, [42859]),
  (42860, [42861]), (42862, [42863]), (42873, [42874]), (42875, [42876]),
  (42877, [7545]), (42878, [42879]), (42880, [42881]), (42882, [42883]),
  (42884, [42885]), (42886, [42887]), (42891, [42892]), (42893, [613]),
  (42896, [42897]), (42898, [42899]), (42902, [42903]), (42904, [42905]),
  (42906, [42907]), (42908, [42909]), (42910, [42911]), (42912, [42913]),
  (42914, [42915]), (42916, [42917]), (42918, [42919]), (42920, [42921]),
  (42922, [614]), (42923, [604]), (42924, [609]), (42925, [620]),
  (42926, [618]), (42928, [670]), (42929, [647]), (42930, [669]),
  (42931, [43859]), (42932, [42933]), (42934, [42935]), (42936, [42937]),
  (42938, [42939]), (42940, [42941]), (42942, [42943]), (42944, [42945]),
  (42946, [42947]), (42948, [42900]), (42949, [642]), (42950, [7566]),
  (42951, [42952]), (42953, [42954]), (42960, [42961]), (42966, [42967]),
  (42968, [42969]), (42997, [42998]), (65313, [65345]), (65314, [65346]),
  (65315, [65347]), (65316, [65348]), (65317, [65349]), (65318, [65350]),
  (65319, [65351]), (65320, [65352]), (65321, [65353]), (65322, [65354]),
  (65323, [65355]), (65324, [65356]), (65325, [65357]), (65326, [65358]),
  (65327, [65359]), (65328, [65360]), (65329, [65361]), (65330, [65362]),
  (65331, [65363]), (65332, [65364]), (65333, [65365]), (65334, [65366]),
  (65335, [65367]), (65336, [65368]), (65337, [65369]), (65338, [65370]),
  (66560, [66600]), (66561, [66601]), (66562, [66602]), (66563, [66603]),
  (66564, [66604]), (66565, [66605]), (66566, [66606]), (66567, [66607]),
  (66568, [66608]), (66569, [66609]), (66570, [66610]), (66571, [66611]),
  (66572, [66612]), (66573, [66613]), (66574, [66614]), (66575, [66615]),
  (66576, [66616]), (66577, [66617]), (66578, [66618]), (66579, [66619]),
  (66580, [66620]), (66581, [66621]), (66582, [66622]), (66583, [66623]),
  (66584, [66624]), (66585, [66625]), (66586, [66626]), (66587, [66627]),
  (66588, [66628]), (66589, [66629]), (66590, [66630]), (66591, [66631]),
  (66592, [66632]), (66593, [66633]), (66594, [66634]), (66595, [66635]),
  (66596, [66636]), (66597, [66637]), (66598, [66638]), (66599, [66639]),
  (66736, [66776]), (66737, [66777]), (66738, [66778]), (66739, [66779]),
  (66740, [66780]), (66741, [66781]), (66742, [66782]), (66743, [66783]),
  (66744, [66784]), (66745, [66785]), (66746, [66786]), (66747, [66787]),
  (66748, [66788]), (66749, [66789]), (66750, [66790]), (66751, [66791]),
  (66752, [66792]), (66753, [66793]), (66754, [66794]), (66755, [66795]),
  (66756, [66796]), (66757, [66797]), (66758, [66798]), (66759, [66799]),
  (66760, [66800]), (66761, [66801]), (66762, [66802]), (66763, [66803]),
  (66764, [66804]), (66765, [66805]), (66766, [66806]), (66767, [66807]),
  (66768, [66808]), (66769, [66809]), (66770, [66810]), (66771, [66811]),
  (66928, [66967]), (66929, [66968]), (66930, [66969]), (66931, [66970]),
  (66932, [66971]), (66933, [66972]), (66934, [66973]), (66935, [66974]),
  (66936, [66975]), (66937, [66976]), (66938, [66977]), (66940, [66979]),
  (66941, [66980]), (66942, [66981]), (66943, [66982]), (66944, [66983]),
  (66945, [66984]), (66946, [66985]), (66947, [66986]), (66948, [66987]),
  (66949, [66988]), (66950, [66989]), (66951, [66990]), (66952, [66991]),
  (66953, [66992]), (66954, [66993]), (66956, [66995]), (66957, [66996]),
  (66958, [66997]), (66959, [66998]), (66960, [66999]), (66961, [67000]),
  (66962, [67001]), (66964, [67003]), (66965, [67004]), (68736, [68800]),
  (68737, [68801]), (68738, [68802]), (68739, [68803]), (68740, [68804]),
  (68741, [68805]), (68742, [68806]), (68743, [68807]), (68744, [68808]),
  (68745, [68809]), (68746, [68810]), (68747, [68811]), (68748, [68812]),
  (68749, [68813]), (68750, [68814]), (68751, [68815]), (68752, [68816]),
  (68753, [68817]), (68754, [68818]), (68755, [68819]), (68756, [68820]),
  (68757, [68821]), (68758, [68822]), (68759, [68823]), (68760, [68824]),
  (68761, [68825]), (68762, [68826]), (68763, [68827]), (68764, [68828]),
  (68765, [68829]), (68766, [68830]), (68767, [68831]), (68768, [68832]),
  (68769, [68833]), (68770, [68834]), (68771, [68835]), (68772, [68836]),
  (68773, [68837]), (68774, [68838]), (68775, [68839]), (68776, [68840]),
  (68777, [68841]), (68778, [68842]), (68779, [68843]), (68780, [68844]),
  (68781, [68845]), (68782, [68846]), (68783, [68847]), (68784, [68848]),
  (68785, [68849]), (68786, [68850]), (71840, [71872]), (71841, [71873]),
  (71842, [71874]), (71843, [71875]), (71844, [71876]), (71845, [71877]),
  (71846, [71878]), (71847, [71879]), (71848, [71880]), (71849, [71881]),
  (71850, [71882]), (71851, [71883]), (71852, [71884]), (71853, [71885]),
  (71854, [71886]), (71855, [71887]), (71856, [71888]), (71857, [71889]),
  (71858, [71890]), (71859, [71891]), (71860, [71892]), (71861, [71893]),
  (71862, [71894]), (71863, [71895]), (71864, [71896]), (71865, [71897]),
  (71866, [71898]), (71867, [71899]), (71868, [71900]), (71869, [71901]),
  (71870, [71902]), (71871, [71903]), (93760, [93792]), (93761, [93793]),
  (93762, [93794]), (93763, [93795]), (93764, [93796]), (93765, [93797]),
  (93766, [93798]), (93767, [93799]), (93768, [93800]), (93769, [93801]),
  (93770, [93802]), (93771, [93803]), (93772, [93804]), (93773, [93805]),
  (93774, [93806]), (93775, [93807]), (93776, [93808]), (93777, [93809]),
  (93778, [93810]), (93779, [93811]), (93780, [93812]), (93781, [93813]),
  (93782, [93814]), (93783, [93815]), (93784, [93816]), (93785, [93817]),
  (93786, [93818]), (93787, [93819]), (93788, [93820]), (93789, [93821]),
  (93790, [93822]), (93791, [93823]), (125184, [125218]), (125185, [125219]),
  (125186, [125220]), (125187, [125221]), (125188, [125222]), (125189, [125223]),
  (125190, [125224]), (125191, [125225]), (125192, [125226]), (125193, [125227]),
  (125194, [125228]), (125195, [125229]), (125196, [125230]), (125197, [125231]),
  (125198, [125232]), (125199, [125233]), (125200, [125234]), (125201, [125235]),
  (125202, [125236]), (125203, [125237]), (125204, [125238]), (125205, [125239]),
  (125206, [125240]), (125207, [125241]), (125208, [125242]), (125209, [125243]),
  (125210, [125244]), (125211, [125245]), (125212, [125246]), (125213, [125247]),
  (125214, [125248]), (125215, [125249]), (125216, [125250]), (125217, [125251])]

/-- The codepoint ranges of the Unicode `Cased` property as consulted by
CPython when lowercasing a capital sigma (UCD 14.0.0). -/
def casedRanges : List (Nat × Nat) := [
  (65, 90), (97, 122), (170, 170), (181, 181), (186, 186), (192, 214),
  (216, 246), (248, 442), (444, 447), (452, 659), (661, 687), (880, 883),
  (886, 887), (891, 893), (895, 895), (902, 902), (904, 906), (908, 908),
  (910, 929), (931, 1013), (1015, 1153), (1162, 1327), (1329, 1366), (1376, 1416),
  (4256, 4293), (4295, 4295), (4301, 4301), (4304, 4346), (4349, 4351), (5024, 5109),
  (5112, 5117), (7296, 7304), (7312, 7354), (7357, 7359), (7424, 7467), (7531, 7543),
  (7545, 7578), (7680, 7957), (7960, 7965), (7968, 8005), (8008, 8013), (8016, 8023),
  (8025, 8025), (8027, 8027), (8029, 8029), (8031, 8061), (8064, 8116), (8118, 8124),
  (8126, 8126), (8130, 8132), (8134, 8140), (8144, 8147), (8150, 8155), (8160, 8172),
  (8178, 8180), (8182, 8188), (8450, 8450), (8455, 8455), (8458, 8467), (8469, 8469),
  (8473, 8477), (8484, 8484), (8486, 8486), (8488, 8488), (8490, 8493), (8495, 8500),
  (8505, 8505), (8508, 8511), (8517, 8521), (8526, 8526), (8544, 8575), (8579, 8580),
  (9398, 9449), (11264, 11387), (11390, 11492), (11499, 11502), (11506, 11507), (11520, 11557),
  (11559, 11559), (11565, 11565), (42560, 42605), (42624, 42651), (42786, 42863), (42865, 42887),
  (42891, 42894), (42896, 42954), (42960, 42961), (42963, 42963), (42965, 42969), (42997, 42998),
  (43002, 43002), (43824, 43866), (43872, 43880), (43888, 43967), (64256, 64262), (64275, 64279),
  (65313, 65338), (65345, 65370), (66560, 66639), (66736, 66771), (66776, 66811), (66928, 66938),
  (66940, 66954), (66956, 66962), (66964, 66965), (66967, 66977), (66979, 66993), (66995, 67001),
  (67003, 67004), (68736, 68786), (68800, 68850), (71840, 71903), (93760, 93823), (119808, 119892),
  (119894, 119964), (119966, 119967), (119970, 119970), (119973, 119974), (119977, 119980), (119982, 119993),
  (119995, 119995), (119997, 120003), (120005, 120069), (120071, 120074), (120077, 120084), (120086, 120092),
  (120094, 120121), (120123, 120126), (120128, 120132), (120134, 120134), (120138, 120144), (120146, 120485),
  (120488, 120512), (120514, 120538), (120540, 120570), (120572, 120596), (120598, 120628), (120630, 120654),
  (120656, 120686), (120688, 120712), (120714, 120744), (120746, 120770), (120772, 120779), (122624, 122633),
  (122635, 122654), (125184, 125251), (127280, 127305), (127312, 127337), (127344, 127369)]

/-- The codepoint ranges of the Unicode `Case_Ignorable` property as
consulted by CPython when lowercasing a capital sigma (UCD 14.0.0). -/
def caseIgnorableRanges : List (Nat × Nat) := [
  (39, 39), (46, 46), (58, 58), (94, 94), (96, 96), (168, 168),
  (173, 173), (175, 175), (180, 180), (183, 184), (688, 879), (884, 885),
  (890, 890), (900, 901), (903, 903), (1155, 1161), (1369, 1369), (1375, 1375),
  (1425, 1469), (1471, 1471), (1473, 1474), (1476, 1477), (1479, 1479), (1524, 1524),
  (1536, 1541), (1552, 1562), (1564, 1564), (1600, 1600), (1611, 1631), (1648, 1648),
  (1750, 1757), (1759, 1768), (1770, 1773), (1807, 1807), (1809, 1809), (1840, 1866),
  (1958, 1968), (2027, 2037), (2042, 2042), (2045, 2045), (2070, 2093), (2137, 2139),
  (2184, 2184), (2192, 2193), (2200, 2207), (2249, 2306), (2362, 2362), (2364, 2364),
  (2369, 2376), (2381, 2381), (2385, 2391), (2402, 2403), (2417, 2417), (2433, 2433),
  (2492, 2492), (2497, 2500), (2509, 2509), (2530, 2531), (2558, 2558), (2561, 2562),
  (2620, 2620), (2625, 2626), (2631, 2632), (2635, 2637), (2641, 2641), (2672, 2673),
  (2677, 2677), (2689, 2690), (2748, 2748), (2753, 2757), (2759, 2760), (2765, 2765),
  (2786, 2787), (2810, 2815), (2817, 2817), (2876, 2876), (2879, 2879), (2881, 2884),
  (2893, 2893), (2901, 2902), (2914, 2915), (2946, 2946), (3008, 3008), (3021, 3021),
  (3072, 3072), (3076, 3076), (3132, 3132), (3134, 3136), (3142, 3144), (3146, 3149),
  (3157, 3158), (3170, 3171), (3201, 3201), (3260, 3260), (3263, 3263), (3270, 3270),
  (3276, 3277), (3298, 3299), (3328, 3329), (3387, 3388), (3393, 3396), (3405, 3405),
  (3426, 3427), (3457, 3457), (3530, 3530), (3538, 3540), (3542, 3542), (3633, 3633),
  (3636, 3642), (3654, 3662), (3761, 3761), (3764, 3772), (3782, 3782), (3784, 3789),
  (3864, 3865), (3893, 3893), (3895, 3895), (3897, 3897), (3953, 3966), (3968, 3972),
  (3974, 3975), (3981, 3991), (3993, 4028), (4038, 4038), (4141, 4144), (4146, 4151),
  (4153, 4154), (4157, 4158), (4184, 4185), (4190, 4192), (4209, 4212), (4226, 4226),
  (4229, 4230), (4237, 4237), (4253, 4253), (4348, 4348), (4957, 4959), (5906, 5908),
  (5938, 5939), (5970, 5971), (6002, 6003), (6068, 6069), (6071, 6077), (6086, 6086),
  (6089, 6099), (6103, 6103), (6109, 6109), (6155, 6159), (6211, 6211), (6277, 6278),
  (6313, 6313), (6432, 6434), (6439, 6440), (6450, 6450), (6457, 6459), (6679, 6680),
  (6683, 6683), (6742, 6742), (6744, 6750), (6752, 6752), (6754, 6754), (6757, 6764),
  (6771, 6780), (6783, 6783), (6823, 6823), (6832, 6862), (6912, 6915), (6964, 6964),
  (6966, 6970), (6972, 6972), (6978, 6978), (7019, 7027), (7040, 7041), (7074, 7077),
  (7080, 7081), (7083, 7085), (7142, 7142), (7144, 7145), (7149, 7149), (7151, 7153),
  (7212, 7219), (7222, 7223), (7288, 7293), (7376, 7378), (7380, 7392), (7394, 7400),
  (7405, 7405), (7412, 7412), (7416, 7417), (7468, 7530), (7544, 7544), (7579, 7679),
  (8125, 8125), (8127, 8129), (8141, 8143), (8157, 8159), (8173, 8175), (8189, 8190),
  (8203, 8207), (8216, 8217), (8228, 8228), (8231, 8231), (8234, 8238), (8288, 8292),
  (8294, 8303), (8305, 8305), (8319, 8319), (8336, 8348), (8400, 8432), (11388, 11389),
  (11503, 11505), (11631, 11631), (11647, 11647), (11744, 11775), (11823, 11823), (12293, 12293),
  (12330, 12333), (12337, 12341), (12347, 12347), (12441, 12446), (12540, 12542), (40981, 40981),
  (42232, 42237), (42508, 42508), (42607, 42610), (42612, 42621), (42623, 42623), (42652, 42655),
  (42736, 42737), (42752, 42785), (42864, 42864), (42888, 42890), (42994, 42996), (43000, 43001),
  (43010, 43010), (43014, 43014), (43019, 43019), (43045, 43046), (43052, 43052), (43204, 43205),
  (43232, 43249), (43263, 43263), (43302, 43309), (43335, 43345), (43392, 43394), (43443, 43443),
  (43446, 43449), (43452, 43453), (43471, 43471), (43493, 43494), (43561, 43566), (43569, 43570),
  (43573, 43574), (43587, 43587), (43596, 43596), (43632, 43632), (43644, 43644), (43696, 43696),
  (43698, 43700), (43703, 43704), (43710, 43711), (43713, 43713), (43741, 43741), (43756, 43757),
  (43763, 43764), (43766, 43766), (43867, 43871), (43881, 43883), (44005, 44005), (44008, 44008),
  (44013, 44013), (64286, 64286), (64434, 64450), (65024, 65039), (65043, 65043), (65056, 65071),
  (65106, 65106), (65109, 65109), (65279, 65279), (65287, 65287), (65294, 65294), (65306, 65306),
  (65342, 65342), (65344, 65344), (65392, 65392), (65438, 65439), (65507, 65507), (65529, 65531),
  (66045, 66045), (66272, 66272), (66422, 66426), (67456, 67461), (67463, 67504), (67506, 67514),
  (68097, 68099), (68101, 68102), (68108, 68111), (68152, 68154), (68159, 68159), (68325, 68326),
  (68900, 68903), (69291, 69292), (69446, 69456), (69506, 69509), (69633, 69633), (69688, 69702),
  (69744, 69744), (69747, 69748), (69759, 69761), (69811, 69814), (69817, 69818), (69821, 69821),
  (69826, 69826), (69837, 69837), (69888, 69890), (69927, 69931), (69933, 69940), (70003, 70003),
  (70016, 70017), (70070, 70078), (70089, 70092), (70095, 70095), (70191, 70193), (70196, 70196),
  (70198, 70199), (70206, 70206), (70367, 70367), (70371, 70378), (70400, 70401), (70459, 70460),
  (70464, 70464), (70502, 70508), (70512, 70516), (70712, 70719), (70722, 70724), (70726, 70726),
  (70750, 70750), (70835, 70840), (70842, 70842), (70847, 70848), (70850, 70851), (71090, 71093),
  (71100, 71101), (71103, 71104), (71132, 71133), (71219, 71226), (71229, 71229), (71231, 71232),
  (71339, 71339), (71341, 71341), (71344, 71349), (71351, 71351), (71453, 71455), (71458, 71461),
  (71463, 71467), (71727, 71735), (71737, 71738), (71995, 71996), (71998, 71998), (72003, 72003),
  (72148, 72151), (72154, 72155), (72160, 72160), (72193, 72202), (72243, 72248), (72251, 72254),
  (72263, 72263), (72273, 72278), (72281, 72283), (72330, 72342), (72344, 72345), (72752, 72758),
  (72760, 72765), (72767, 72767), (72850, 72871), (72874, 72880), (72882, 72883), (72885, 72886),
  (73009, 73014), (73018, 73018), (73020, 73021), (73023, 73029), (73031, 73031), (73104, 73105),
  (73109, 73109), (73111, 73111), (73459, 73460), (78896, 78904), (92912, 92916), (92976, 92982),
  (92992, 92995), (94031, 94031), (94095, 94111), (94176, 94177), (94179, 94180), (110576, 110579),
  (110581, 110587), (110589, 110590), (113821, 113822), (113824, 113827), (118528, 118573), (118576, 118598),
  (119143, 119145), (119155, 119170), (119173, 119179), (119210, 119213), (119362, 119364), (121344, 121398),
  (121403, 121452), (121461, 121461), (121476, 121476), (121499, 121503), (121505, 121519), (122880, 122886),
  (122888, 122904), (122907, 122913), (122915, 122916), (122918, 122922), (123184, 123197), (123566, 123566),
  (123628, 123631), (125136, 125142), (125252, 125259), (127995, 127999), (917505, 917505), (917536, 917631),
  (917760, 917999)]

/-- Association lookup in the lowercase mapping table. -/
def lookupLower : List (Nat × List Nat) → Nat → Option (List Nat)
  | [], _ => none
  | e :: rest, n => if e.1 = n then some e.2 else lookupLower rest n

/-- The unconditional lowercase expansion of one character
(`_PyUnicode_ToLowerFull`): the table entry when there is one, the character
itself otherwise. -/
def lowerChar (c : Char) : List Char :=
  match lookupLower lowerTable c.toNat with
  | none => [c]
  | some ns => ns.map (fun n => Char.ofNat n)

/-- Membership of a codepoint in a sorted list of inclusive ranges. -/
def inRanges : List (Nat × Nat) → Nat → Bool
  | [], _ => false
  | r :: rest, n => (r.1 ≤ n && n ≤ r.2) || inRanges rest n

/-- The Unicode `Cased` property of a character. -/
def isCased (c : Char) : Bool := inRanges casedRanges c.toNat

/-- The Unicode `Case_Ignorable` property of a character. -/
def isCaseIgnorable (c : Char) : Bool := inRanges caseIgnorableRanges c.toNat

/-- The first character of a list that is not case-ignorable. -/
def firstNonIgnorable : List Char → Option Char
  | [] => none
  | c :: rest => if isCaseIgnorable c then firstNonIgnorable rest else some c

/-- The `Final_Sigma` context condition as implemented by CPython
(`handle_capital_sigma`): the nearest non-case-ignorable character before the
sigma exists and is cased, and the nearest one after it, if any, is not.
`prevRev` holds the characters before the sigma, nearest first. -/
def finalSigma (prevRev rest : List Char) : Bool :=
  match firstNonIgnorable prevRev with
  | none => false
  | some b =>
    isCased b &&
      (match firstNonIgnorable rest with
       | none => true
       | some d => !isCased d)

/-- The lowercasing scan of CPython `str.lower()` (`do_lower`): each capital
sigma becomes U+03C2 in final position and U+03C3 otherwise; every other
character maps through `lowerChar`.  The first argument accumulates the
already-seen characters in reverse, providing the backward context. -/
def lowerAux : List Char → List Char → List Char
  | _, [] => []
  | prevRev, c :: rest =>
    (if c.toNat = 931 then
      [if finalSigma prevRev rest then Char.ofNat 962 else Char.ofNat 963]
     else lowerChar c) ++ lowerAux (c :: prevRev) rest

/-- Python `str.lower()`: the full Unicode lowercase mapping of CPython,
including the contextual final-sigma rule. -/
def strLower (s : String) : String := ⟨lowerAux [] s.data⟩

/-- The match predicate of `search_products`: case-insensitive substring match
against `name` or `description` (both sides lowercased, as in the source). -/
def matchesQuery (product : Product) (query : String) : Bool :=
  strContains (strLower product.name) (strLower query) ||
    strContains (strLower product.description) (strLower query)

/-- `InventoryManager.search_products(query)` (pure: no state is mutated). -/
def search_products (s : State) (query : String) : List Product :=
  (productValues s).filter (fun product => matchesQuery product query)

/-- `InventoryManager.get_products_by_category(category)`. -/
def get_products_by_category (s : State) (category : ProductCategory) : List Product :=
  (productValues s).filter (fun product => product.category = category)

/-- `InventoryManager.get_low_stock_products()`. -/
def get_low_stock_products (s : State) : List Product :=
  (productValues s).filter (fun product => product.is_low_stock)

/-- `InventoryManager.get_expired_products()`. -/
def get_expired_products (s : State) (now : DateTime) : List Product :=
  (productValues s).filter (fun product => product.is_expired now)

/-- `InventoryManager.get_near_expiration_products(days_threshold=30)`. -/
def get_near_expiration_products (s : State) (days_threshold : Int) (now : DateTime) : List Product :=
  (productValues s).filter (fun product => product.is_near_expiration days_threshold now)

/-- The JSON document written by `save_to_file` and read by `load_from_file`. -/
structure Doc where
  products : List ProductDict
  transactions : List Transaction
deriving DecidableEq, Repr

/-- `InventoryManager.save_to_file(filename)`: the document it serializes. -/
def save_to_file (s : State) : Doc :=
  { products := (productValues s).map Product.to_dict
    transactions := s.transactions }

/-- The reconstruction loop of `load_from_file`, starting from the cleared
mapping: deserialize each product in order into the live mapping, stopping at
the first deserialization error (returning `false` and the partial mapping). -/
def loadLoop : List (String × Product) → List ProductDict → Bool × List (String × Product)
  | acc, [] => (true, acc)
  | acc, d :: ds =>
    match product_from_dict d with
    | none => (false, acc)
    | some product => loadLoop (setKey acc product.id product) ds

/-- `InventoryManager.load_from_file(filename)`.  `none` models a missing file
(`FileNotFoundError`, caught before any mutation).  On a document, the source
first clears `self.products`, rebuilds it incrementally, and only assigns
`self.transactions` after the loop succeeds; a deserialization error mid-loop
is caught and leaves the partially rebuilt mapping behind. -/
def load_from_file (s : State) (file : Option Doc) : Bool × State :=
  match file with
  | none => (false, s)
  | some data =>
    match loadLoop [] data.products with
    | (true, prods) => (true, { products := prods, transactions := data.transactions })
    | (false, prods) => (false, { products := prods, transactions := s.transactions })

/-- One mutating manager call, for stating properties of call sequences. -/
inductive Op where
  | add (product : Product)
  | remove (product_id : String)
  | update (product_id : String) (quantity_change : Int) (reason : String)
deriving DecidableEq, Repr

/-- Apply one mutating call (with the wall-clock time of the call). -/
def applyOp (now : DateTime) (s : State) : Op → State
  | .add product => (add_product s now product).2
  | .remove product_id => (remove_product s now product_id).2
  | .update product_id delta reason => (update_stock s now product_id delta reason).2

/-- Run a sequence of mutating calls, each with its own timestamp. -/
def runOps (s : State) : List (DateTime × Op) → State
  | [] => s
  | x :: rest => runOps (applyOp x.1 s x.2) rest

/-! ### Concrete sample data for witnesses and counterexamples -/

/-- A sample product with no expiration date. -/
def aspirin : Product :=
  ⟨"P1", "Aspirina 500", .ALOPATICA, "Analgesico comun", 5, 2, 10, none, none, none, none⟩

/-- A sample product with every optional field set. -/
def vitaminC : Product :=
  ⟨"P2", "Vitamina C 1000mg", .ORTOMOLECULAR, "Acido ascorbico", 50, 10, 25,
    some 1700000000000000, some "VC2024-001", some "Laboratorio XYZ", some "Estante A-1"⟩

/-- A manager holding just `aspirin`, with an empty log. -/
def sOne : State := ⟨[("P1", aspirin)], []⟩

/-- A manager holding `aspirin` and `vitaminC`, with one logged transaction. -/
def sTwo : State :=
  ⟨[("P1", aspirin), ("P2", vitaminC)], [⟨5, "ADD", "P1", 5, ""⟩]⟩

/-- A serialized product carrying a category tag outside the closed set. -/
def badDict : ProductDict :=
  ⟨"PX", "Misterio", "categoria_desconocida", "tag invalido", 1, 0, 1, none, none, none, none⟩

/-- A document whose only product fails deserialization. -/
def docBad : Doc := ⟨[badDict], []⟩

/-- A document with no products and no transactions. -/
def docEmpty : Doc := ⟨[], []⟩

/-- A product that expired exactly one day before the reference time `0`. -/
def pPast : Product :=
  ⟨"E1", "Vencido", .FITOTERAPIA, "lote viejo", 1, 0, 1, some (-86400000000), none, none, none⟩

/-- A product expiring exactly ten days after the reference time `0`. -/
def pFuture : Product :=
  ⟨"E2", "Por vencer", .FLORALES, "lote nuevo", 1, 0, 1, some 864000000000, none, none, none⟩

/-- A product expiring 100 microseconds after the reference time `0` —
strictly in the future but less than a whole day away. -/
def pSoon : Product :=
  ⟨"E3", "Vence hoy", .PROBIOTICOS, "urgente", 1, 0, 1, some 100, none, none, none⟩

/-- The first demo product of the source (`example_usage`): its description
carries the accented "Ácido ascórbico", exercising Unicode lowercasing. -/
def prod001 : Product :=
  ⟨"PROD001", "Vitamina C 1000mg", .ORTOMOLECULAR, "Ácido ascórbico de alta pureza",
    50, 10, 2500, some 1000000000000, some "VC2024-001", some "Laboratorio XYZ",
    some "Estante A-1"⟩

/-- A sample product with initial stock 50 for the call-sequence scenario. -/
def p50 : Product :=
  ⟨"PW", "Jarabe pediatrico", .OTROS, "jarabe", 50, 10, 5, none, none, none, none⟩

/-- The scenario from the spec: add stock 50, sell 45, then try to sell 10 more. -/
def opsW : List (DateTime × Op) :=
  [(0, .add p50), (1, .update "PW" (-45) "venta"), (2, .update "PW" (-10) "venta")]

/-- A sample transaction record. -/
def txn0 : Transaction := ⟨1, "ADD", "P1", 5, ""⟩

/-- A manager with an empty mapping and one logged transaction. -/
def sLog : State := ⟨[], [txn0]⟩

/-! ### Association-list lemmas (the Python-dict model) -/

theorem lookupKey_setKey_self (l : List (String × Product)) (k : String) (v : Product) :
    lookupKey (setKey l k v) k = some v := by
  induction l with
  | nil => simp [setKey, lookupKey]
  | cons kp rest ih =>
    by_cases h : kp.1 = k
    · simp [setKey, h, lookupKey]
    · simp [setKey, h, lookupKey, ih]

theorem setKey_of_absent (l : List (String × Product)) (k : String) (v : Product)
    (h : lookupKey l k = none) : setKey l k v = l ++ [(k, v)] := by
  induction l with
  | nil => simp [setKey]
  | cons kp rest ih =>
    by_cases hk : kp.1 = k
    · simp [lookupKey, hk] at h
    · simp [lookupKey, hk] at h
      simp [setKey, hk, ih h]

theorem lookupKey_append_of_none (l1 l2 : List (String × Product)) (k : String)
    (h : lookupKey l1 k = none) : lookupKey (l1 ++ l2) k = lookupKey l2 k := by
  induction l1 with
  | nil => simp
  | cons kp rest ih =>
    by_cases hk : kp.1 = k
    · simp [lookupKey, hk] at h
    · simp [lookupKey, hk] at h ⊢
      exact ih h

theorem mem_setKey (l : List (String × Product)) (k : String) (v : Product)
    (x : String × Product) (h : x ∈ setKey l k v) : x = (k, v) ∨ x ∈ l := by
  induction l with
  | nil =>
    simp [setKey] at h
    exact Or.inl h
  | cons kp rest ih =>
    by_cases hk : kp.1 = k
    · rw [setKey, if_pos hk] at h
      rcases List.mem_cons.mp h with h | h
      · exact Or.inl h
      · exact Or.inr (List.mem_cons_of_mem kp h)
    · rw [setKey, if_neg hk] at h
      rcases List.mem_cons.mp h with h | h
      · exact Or.inr (h ▸ List.mem_cons_self kp rest)
      · rcases ih h with h2 | h2
        · exact Or.inl h2
        · exact Or.inr (List.mem_cons_of_mem kp h2)

theorem mem_removeKey (l : List (String × Product)) (k : String)
    (x : String × Product) (h : x ∈ removeKey l k) : x ∈ l := by
  induction l with
  | nil => simp [removeKey] at h
  | cons kp rest ih =>
    by_cases hk : kp.1 = k
    · rw [removeKey, if_pos hk] at h
      exact List.mem_cons_of_mem kp h
    · rw [removeKey, if_neg hk] at h
      rcases List.mem_cons.mp h with h | h
      · exact h ▸ List.mem_cons_self kp rest
      · exact List.mem_cons_of_mem kp (ih h)

theorem listContainsSub_nil (l : List Char) : listContainsSub l [] = true := by
  cases l <;> rfl

theorem strContains_empty (x : String) : strContains x "" = true := by
  show listContainsSub x.data "".data = true
  exact listContainsSub_nil x.data

/-- Every product matches the empty query: lowercasing the empty string gives
the empty string, and the empty string is a substring of anything. -/
theorem matchesQuery_empty (p : Product) : matchesQuery p "" = true := by
  have h : strLower "" = "" := rfl
  simp [matchesQuery, h, strContains_empty]

/-- One mutating call keeps every stored quantity non-negative, provided an
added product starts non-negative (`update_stock` enforces its own guard). -/
theorem applyOp_stock_nonneg (now : DateTime) (s : State) (op : Op)
    (h0 : ∀ p ∈ productValues s, 0 ≤ p.stock_quantity)
    (hop : ∀ q, op = Op.add q → 0 ≤ q.stock_quantity) :
    ∀ p ∈ productValues (applyOp now s op), 0 ≤ p.stock_quantity := by
  intro p hp
  cases op with
  | add q =>
    rcases hl : lookupKey s.products q.id with _ | r
    · simp only [applyOp, add_product, hl, log_transaction, productValues] at hp
      obtain ⟨x, hx, rfl⟩ := List.mem_map.mp hp
      rcases mem_setKey _ _ _ _ hx with h | h
      · rw [h]
        exact hop q rfl
      · exact h0 x.2 (List.mem_map_of_mem _ h)
    · simp only [applyOp, add_product, hl] at hp
      exact h0 p hp
  | remove pid =>
    rcases hl : lookupKey s.products pid with _ | r
    · simp only [applyOp, remove_product, hl] at hp
      exact h0 p hp
    · simp only [applyOp, remove_product, hl, log_transaction, productValues] at hp
      obtain ⟨x, hx, rfl⟩ := List.mem_map.mp hp
      exact h0 x.2 (List.mem_map_of_mem _ (mem_removeKey _ _ _ hx))
  | update pid delta reason =>
    rcases hl : lookupKey s.products pid with _ | r
    · simp only [applyOp, update_stock, hl] at hp
      exact h0 p hp
    · by_cases hneg : r.stock_quantity + delta < 0
      · simp only [applyOp, update_stock, hl, if_pos hneg] at hp
        exact h0 p hp
      · simp only [applyOp, update_stock, hl, if_neg hneg, log_transaction, productValues] at hp
        obtain ⟨x, hx, rfl⟩ := List.mem_map.mp hp
        rcases mem_setKey _ _ _ _ hx with h | h
        · rw [h]
          exact not_lt.mp hneg
        · exact h0 x.2 (List.mem_map_of_mem _ h)

/-- Deserializing the dictionary a product serializes to yields that product
back (the category tag and every other field round-trip). -/
theorem product_from_to_dict (p : Product) :
    product_from_dict (Product.to_dict p) = some p := by
  obtain ⟨i, n, c, d, sq, ms, up, ed, bn, su, sl⟩ := p
  cases c <;> rfl

/-- Replaying the serialized form of a well-formed association list through
the reconstruction loop appends exactly that list to the accumulator. -/
theorem loadLoop_map_to_dict (l : List (String × Product)) (acc : List (String × Product))
    (hid : ∀ kp ∈ l, kp.1 = kp.2.id)
    (hdisj : ∀ kp ∈ l, lookupKey acc kp.1 = none)
    (hnd : (l.map Prod.fst).Nodup) :
    loadLoop acc (l.map (fun kp => Product.to_dict kp.2)) = (true, acc ++ l) := by
  induction l generalizing acc with
  | nil => simp [loadLoop]
  | cons kp rest ih =>
    have hkp : kp.1 = kp.2.id := hid kp (List.mem_cons_self kp rest)
    have habs : lookupKey acc kp.2.id = none := hkp ▸ hdisj kp (List.mem_cons_self kp rest)
    have hnotin : kp.1 ∉ rest.map Prod.fst := (List.nodup_cons.mp (by simpa using hnd)).1
    simp only [List.map_cons, loadLoop, product_from_to_dict]
    rw [setKey_of_absent _ _ _ habs, ← hkp]
    have hpair : (kp.1, kp.2) = kp := rfl
    rw [hpair]
    rw [ih (acc ++ [kp])
      (fun x hx => hid x (List.mem_cons_of_mem kp hx))
      (fun x hx => by
        rw [lookupKey_append_of_none _ _ _ (hdisj x (List.mem_cons_of_mem kp hx))]
        have hne : kp.1 ≠ x.1 := fun hc => hnotin (hc ▸ List.mem_map_of_mem Prod.fst hx)
        simp [lookupKey, hne])
      ((List.nodup_cons.mp (by simpa using hnd)).2)]
    simp

/-! ### Claim theorems -/

/-- Claim C1: `update_stock(id, delta, reason)` returns `false` and leaves the
product mapping and the transaction log unchanged when `id` is absent or when
`stock_quantity + delta < 0`; otherwise it sets the stock of that product to
`stock_quantity + delta`, appends exactly one UPDATE transaction recording
`delta` and `reason`, and returns `true`. -/
theorem C1_update_stock_spec (s : State) (now : DateTime) (product_id : String)
    (delta : Int) (reason : String) :
    (lookupKey s.products product_id = none →
      update_stock s now product_id delta reason = (false, s)) ∧
    (∀ p, lookupKey s.products product_id = some p → p.stock_quantity + delta < 0 →
      update_stock s now product_id delta reason = (false, s)) ∧
    (∀ p, lookupKey s.products product_id = some p → 0 ≤ p.stock_quantity + delta →
      update_stock s now product_id delta reason =
        (true,
          { products :=
              setKey s.products product_id { p with stock_quantity := p.stock_quantity + delta }
            transactions :=
              s.transactions ++ [⟨now, "UPDATE", product_id, delta, reason⟩] }) ∧
      get_product (update_stock s now product_id delta reason).2 product_id =
        some { p with stock_quantity := p.stock_quantity + delta }) := by
  refine ⟨?_, ?_, ?_⟩
  · intro h
    simp [update_stock, h]
  · intro p hp hneg
    simp [update_stock, hp, hneg]
  · intro p hp hpos
    have hlt : ¬ (p.stock_quantity + delta < 0) := not_lt.mpr hpos
    refine ⟨?_, ?_⟩
    · simp [update_stock, hp, hlt, log_transaction]
    · simp [update_stock, hp, hlt, log_transaction, get_product, lookupKey_setKey_self]

/-- Witness for C1 at a concrete input: draining the whole stock
(`delta = -stock_quantity`) succeeds and leaves `stock_quantity = 0`, with one
UPDATE transaction appended. -/
theorem C1_update_stock_spec_witness :
    lookupKey sOne.products "P1" = some aspirin ∧
    (0 : Int) ≤ aspirin.stock_quantity + (-5) ∧
    update_stock sOne 7 "P1" (-5) "venta" =
      (true, ⟨[("P1", { aspirin with stock_quantity := 0 })],
              [⟨7, "UPDATE", "P1", -5, "venta"⟩]⟩) ∧
    get_product (update_stock sOne 7 "P1" (-5) "venta").2 "P1" =
      some { aspirin with stock_quantity := 0 } := by
  have h := (C1_update_stock_spec sOne 7 "P1" (-5) "venta").2.2 aspirin (by decide) (by decide)
  refine ⟨by decide, by decide, ?_, ?_⟩
  · rw [h.1]
    decide
  · rw [h.2]
    decide

/-- Claim C5: `add_product(p)` returns `false` and leaves the product mapping
and the transaction log unchanged when `p.id` is already present; otherwise it
inserts `p`, appends exactly one ADD transaction whose quantity is the
initial stock of `p`, and returns `true`. -/
theorem C5_add_product_spec (s : State) (now : DateTime) (p : Product) :
    (∀ q, lookupKey s.products p.id = some q → add_product s now p = (false, s)) ∧
    (lookupKey s.products p.id = none →
      add_product s now p =
        (true, { products := s.products ++ [(p.id, p)]
                 transactions := s.transactions ++ [⟨now, "ADD", p.id, p.stock_quantity, ""⟩] })) := by
  refine ⟨?_, ?_⟩
  · intro q hq
    simp [add_product, hq]
  · intro h
    simp [add_product, h, log_transaction, setKey_of_absent _ _ _ h]

/-- Witness for C5 at a concrete input: a fresh id is inserted at the end of
the mapping with one ADD transaction; the quantity logged is the initial stock. -/
theorem C5_add_product_spec_witness :
    lookupKey sOne.products vitaminC.id = none ∧
    add_product sOne 3 vitaminC =
      (true, ⟨[("P1", aspirin), ("P2", vitaminC)], [⟨3, "ADD", "P2", 50, ""⟩]⟩) := by
  have h := (C5_add_product_spec sOne 3 vitaminC).2 (by decide)
  refine ⟨by decide, ?_⟩
  rw [h]
  decide

/-- Claim C8: loading a missing file (`FileNotFoundError`) returns `false` and
leaves the product mapping and transaction log unchanged. -/
theorem C8_load_missing_file (s : State) : load_from_file s none = (false, s) := rfl

set_option maxRecDepth 40000

/-- Claim C9: `search_products(query)` returns exactly the stored products
whose name or description contains the query as a case-insensitive substring
— lowercasing both sides with the full Unicode `str.lower()` of CPython —
and it is a pure function of the state, so no state is mutated; the empty
query returns every stored product.  The concrete conjuncts exercise the
Unicode dimension on the demo data of the source: the accented query
"ácido" matches the description "Ácido ascórbico de alta pureza", and an
uppercase accented query finds the product end to end. -/
theorem C9_search_products_spec (s : State) (query : String) :
    (∀ p, p ∈ search_products s query ↔ p ∈ productValues s ∧ matchesQuery p query = true) ∧
    search_products s "" = productValues s ∧
    matchesQuery prod001 "ácido" = true ∧
    search_products ⟨[("PROD001", prod001)], []⟩ "ÁCIDO" = [prod001] ∧
    matchesQuery prod001 "aspirina" = false := by
  refine ⟨?_, ?_, by decide, by decide, by decide⟩
  · intro p
    simp [search_products, List.mem_filter]
  · apply List.filter_eq_self.mpr
    intro p _
    exact matchesQuery_empty p

/-- Claim C7: `is_expired` is true iff a date is set and `now` is strictly
after it; `days_until_expiration` is the whole-day floor of the gap (none
without a date, may be negative); `is_near_expiration(t)` is true iff
`0 < days ≤ t`.  A product expiring exactly one day ago is expired and near
expiration for no threshold; one expiring in exactly ten days is near
expiration for threshold 30 but not 5. -/
theorem C7_expiration_predicates (p : Product) (now : Int) :
    (p.expiration_date = none →
      p.is_expired now = false ∧ p.days_until_expiration now = none ∧
      ∀ t, p.is_near_expiration t now = false) ∧
    (∀ e, p.expiration_date = some e →
      (p.is_expired now = true ↔ e < now) ∧
      p.days_until_expiration now = some (Int.fdiv (e - now) usPerDay) ∧
      ∀ t, (p.is_near_expiration t now = true ↔
        0 < Int.fdiv (e - now) usPerDay ∧ Int.fdiv (e - now) usPerDay ≤ t)) ∧
    (p.expiration_date = some (now - usPerDay) →
      p.is_expired now = true ∧ ∀ t, p.is_near_expiration t now = false) ∧
    (p.expiration_date = some (now + 10 * usPerDay) →
      p.is_near_expiration 30 now = true ∧ p.is_near_expiration 5 now = false) := by
  refine ⟨?_, ?_, ?_, ?_⟩
  · intro h
    simp [Product.is_expired, Product.days_until_expiration, Product.is_near_expiration, h]
  · intro e he
    refine ⟨?_, ?_, ?_⟩
    · simp [Product.is_expired, he]
    · simp [Product.days_until_expiration, he]
    · intro t
      simp [Product.is_near_expiration, Product.days_until_expiration, he]
  · intro h
    have harg : now - usPerDay - now = -usPerDay := by ring
    have hfd : Int.fdiv (-usPerDay) usPerDay = -1 := by decide
    have hd : p.days_until_expiration now = some (-1) := by
      simp only [Product.days_until_expiration, h, harg, hfd]
    constructor
    · have : now - usPerDay < now := by
        have : (0:Int) < usPerDay := by decide
        omega
      simp [Product.is_expired, h, this]
    · intro t
      simp [Product.is_near_expiration, hd]
  · intro h
    have harg : now + 10 * usPerDay - now = 10 * usPerDay := by ring
    have hfd : Int.fdiv (10 * usPerDay) usPerDay = 10 := by decide
    have hd : p.days_until_expiration now = some 10 := by
      simp only [Product.days_until_expiration, h, harg, hfd]
    constructor
    · simp [Product.is_near_expiration, hd]
    · simp [Product.is_near_expiration, hd]

/-- Witness for C7 at concrete inputs: at time `0`, a product that expired a
day ago is expired and not near expiration, and one expiring in ten days is
near expiration for threshold 30 but not 5. -/
theorem C7_expiration_predicates_witness :
    pPast.is_expired 0 = true ∧ pPast.is_near_expiration 30 0 = false ∧
    pFuture.is_near_expiration 30 0 = true ∧ pFuture.is_near_expiration 5 0 = false := by
  have h1 := (C7_expiration_predicates pPast 0).2.2.1 (by decide)
  have h2 := (C7_expiration_predicates pFuture 0).2.2.2 (by decide)
  exact ⟨h1.1, h1.2 30, h2.1, h2.2⟩

/-- Claim C10: a product expiring strictly in the future but less than one
whole day away has `days_until_expiration = 0`, so it is neither expired nor
near expiration for any threshold, and it appears in neither the expired
listing nor the near-expiration listing of any manager. -/
theorem C10_expiring_within_a_day (s : State) (p : Product) (now e : Int)
    (h1 : p.expiration_date = some e) (h2 : now < e) (h3 : e - now < usPerDay) :
    p.days_until_expiration now = some 0 ∧
    p.is_expired now = false ∧
    (∀ t, p.is_near_expiration t now = false) ∧
    p ∉ get_expired_products s now ∧
    (∀ t, p ∉ get_near_expiration_products s t now) := by
  have hpos : (0:Int) < e - now := by omega
  have hfd : Int.fdiv (e - now) usPerDay = 0 := by
    rw [Int.fdiv_eq_ediv _ (by decide : (0:Int) ≤ usPerDay)]
    exact Int.ediv_eq_zero_of_lt hpos.le h3
  have hd : p.days_until_expiration now = some 0 := by
    simp only [Product.days_until_expiration, h1, hfd]
  have hex : p.is_expired now = false := by
    have : ¬ e < now := by omega
    simp [Product.is_expired, h1, this]
  have hnear : ∀ t, p.is_near_expiration t now = false := by
    intro t
    simp [Product.is_near_expiration, hd]
  refine ⟨hd, hex, hnear, ?_, ?_⟩
  · simp [get_expired_products, List.mem_filter, hex]
  · intro t
    simp [get_near_expiration_products, List.mem_filter, hnear t]

/-- Witness for C10 at a concrete input: at time `0`, a product expiring at
time `100` (within the day) reports zero days, is neither expired nor near
expiration, and is absent from both listings of a sample manager. -/
theorem C10_expiring_within_a_day_witness :
    pSoon.days_until_expiration 0 = some 0 ∧
    pSoon.is_expired 0 = false ∧
    pSoon.is_near_expiration 30 0 = false ∧
    pSoon ∉ get_expired_products sOne 0 ∧
    pSoon ∉ get_near_expiration_products sOne 30 0 := by
  have h := C10_expiring_within_a_day sOne pSoon 0 100 (by decide) (by decide) (by decide)
  exact ⟨h.1, h.2.1, h.2.2.1 30, h.2.2.2.1, h.2.2.2.2 30⟩

/-- Claim C2: if every currently stored product has non-negative stock and
every product passed to `add_product` in the sequence has non-negative stock,
then after any sequence of `add_product`, `remove_product`, and `update_stock`
calls every stored product still has non-negative stock. -/
theorem C2_stock_nonneg_invariant (s : State) (ops : List (DateTime × Op))
    (h0 : ∀ p ∈ productValues s, 0 ≤ p.stock_quantity)
    (hadd : ∀ x ∈ ops, ∀ q, x.2 = Op.add q → 0 ≤ q.stock_quantity) :
    ∀ p ∈ productValues (runOps s ops), 0 ≤ p.stock_quantity := by
  induction ops generalizing s with
  | nil => simpa [runOps] using h0
  | cons x rest ih =>
    rw [runOps]
    exact ih (applyOp x.1 s x.2)
      (applyOp_stock_nonneg x.1 s x.2 h0
        (fun q hq => hadd x (List.mem_cons_self x rest) q hq))
      (fun y hy q hq => hadd y (List.mem_cons_of_mem x hy) q hq)

/-- Witness for C2 at a concrete input: after the scenario from the spec (add stock
50, sell 45, attempt to sell 10 more — refused), the stock of the surviving
product (5, still stored) is non-negative. -/
theorem C2_stock_nonneg_invariant_witness :
    ({ p50 with stock_quantity := 5 } : Product) ∈ productValues (runOps ⟨[], []⟩ opsW) ∧
    0 ≤ ({ p50 with stock_quantity := 5 } : Product).stock_quantity := by
  have h := C2_stock_nonneg_invariant ⟨[], []⟩ opsW
    (by simp [productValues])
    (by
      intro x hx q hq
      simp only [opsW, List.mem_cons, List.not_mem_nil, or_false] at hx
      rcases hx with rfl | rfl | rfl
      · injection hq with h2
        subst h2
        decide
      · simp at hq
      · simp at hq)
  exact ⟨by decide, h _ (by decide)⟩

/-- Claim C3: saving a well-formed manager state and loading the resulting
document into a fresh manager reproduces the products (all fields, category
and expiration included, in order) and the transaction sequence exactly.
Well-formedness (each binding keyed by the id of its product, keys distinct) is the
structural invariant of the Python dict being modelled. -/
theorem C3_save_load_roundtrip (s : State)
    (hid : ∀ kp ∈ s.products, kp.1 = kp.2.id)
    (hnd : (s.products.map Prod.fst).Nodup) :
    load_from_file ⟨[], []⟩ (some (save_to_file s)) = (true, s) := by
  have hl2 : loadLoop [] (List.map Product.to_dict (productValues s)) = (true, s.products) := by
    show loadLoop [] (List.map Product.to_dict (List.map Prod.snd s.products)) = (true, s.products)
    rw [List.map_map]
    exact loadLoop_map_to_dict s.products [] hid (fun kp _ => rfl) hnd
  simp only [load_from_file, save_to_file, hl2]

/-- Witness for C3 at a concrete input: a two-product manager (one product
with category, expiration, batch, supplier and location all set) and a
non-empty log survive a save/load round trip bit for bit. -/
theorem C3_save_load_roundtrip_witness :
    load_from_file ⟨[], []⟩ (some (save_to_file sTwo)) = (true, sTwo) :=
  C3_save_load_roundtrip sTwo (by decide) (by decide)

/-- Claim C4 as stated is false at a concrete input: loading a document whose
only product carries an unrecognized category tag over a one-product manager
returns `false` but leaves the product mapping cleared, not the mapping the
manager had before the call. -/
theorem C4_counterexample :
    (load_from_file sOne (some docBad)).1 = false ∧
    (load_from_file sOne (some docBad)).2.products ≠ sOne.products := by
  decide

/-- Claim C4, amended: when a deserialization error occurs the error is caught
and `load_from_file` returns `false` with the transaction log unchanged, but
the product mapping is left as the partial reconstruction of the products
of the document up to the error (the pre-call mapping is not restored). -/
theorem C4_load_error_caught (s : State) (data : Doc)
    (h : (load_from_file s (some data)).1 = false) :
    (load_from_file s (some data)).2.transactions = s.transactions ∧
    (load_from_file s (some data)).2.products = (loadLoop [] data.products).2 := by
  rcases hl : loadLoop [] data.products with ⟨ok, prods⟩
  cases ok
  · simp [load_from_file, hl]
  · simp [load_from_file, hl] at h

/-- Witness for the amended C4 at a concrete input: the bad-tag document fails
to load, the log survives, and the mapping equals the partial reconstruction. -/
theorem C4_load_error_caught_witness :
    (load_from_file sOne (some docBad)).1 = false ∧
    (load_from_file sOne (some docBad)).2.transactions = sOne.transactions ∧
    (load_from_file sOne (some docBad)).2.products = (loadLoop [] docBad.products).2 := by
  have h := C4_load_error_caught sOne docBad (by decide)
  exact ⟨by decide, h.1, h.2⟩

/-- Claim C6 as stated is false at a concrete input: `load_from_file` is a
manager operation, and loading an empty document over a manager with one
logged transaction succeeds yet replaces the log with the empty transaction
list of the document, so the old log is not a prefix of the new one. -/
theorem C6_counterexample :
    (load_from_file sLog (some docEmpty)).1 = true ∧
    ¬ ∃ ts, (load_from_file sLog (some docEmpty)).2.transactions = sLog.transactions ++ ts := by
  constructor
  · decide
  · rintro ⟨ts, hts⟩
    simp [load_from_file, loadLoop, sLog, docEmpty, txn0] at hts

/-- Claim C6, amended: after any `add_product`, `remove_product`, or
`update_stock` call the previous transaction sequence is an unchanged prefix
of the new one (records are only ever appended, never edited or deleted);
`load_from_file`, by contrast, replaces the log wholesale with the transaction
list of the document. -/
theorem C6_append_only_mutators (s : State) (now : DateTime) (op : Op) :
    ∃ ts, (applyOp now s op).transactions = s.transactions ++ ts := by
  cases op with
  | add q =>
    rcases hl : lookupKey s.products q.id with _ | r
    · exact ⟨[⟨now, "ADD", q.id, q.stock_quantity, ""⟩],
        by simp [applyOp, add_product, hl, log_transaction]⟩
    · exact ⟨[], by simp [applyOp, add_product, hl]⟩
  | remove pid =>
    rcases hl : lookupKey s.products pid with _ | r
    · exact ⟨[], by simp [applyOp, remove_product, hl]⟩
    · exact ⟨[⟨now, "REMOVE", pid, 0, ""⟩],
        by simp [applyOp, remove_product, hl, log_transaction]⟩
  | update pid delta reason =>
    rcases hl : lookupKey s.products pid with _ | r
    · exact ⟨[], by simp [applyOp, update_stock, hl]⟩
    · by_cases hneg : r.stock_quantity + delta < 0
      · exact ⟨[], by simp [applyOp, update_stock, hl, hneg]⟩
      · exact ⟨[⟨now, "UPDATE", pid, delta, reason⟩],
          by simp [applyOp, update_stock, hl, hneg, log_transaction]⟩

end Inventory
